import Mathlib

/-!
Shallow embedding of the dunno authentication subsystem:
token service (src/unnamed/part_010), auth middleware (src/src/middleware/auth.ts,
src/src/server/root.ts), cache wrapper (src/src/services/valkey.ts),
user service 2FA/recovery operations (src/src/services/user.ts,
src/src/utils/recovery.ts) and the login route (src/src/server/routers/user.ts).

Machine integers are modelled as Nat/Int; the external HMAC primitive (jose)
is modelled by a boolean signature-validity field on the token value, and the
compact serialized token string is identified with the structured claims
(serialization of well-formed JWTs is injective, so keying the blacklist by
the structured value is equivalent to keying by the literal string).
-/

deriving instance DecidableEq for Except

namespace Dunno

/-- Token configuration (tokenConfig in src/src/utils/recovery.ts, second file
segment): access tokens live 15 minutes, refresh tokens 7 days. -/
structure TokenConfig where
  accessTokenExpirySec : Nat
  refreshTokenExpirySec : Nat
  issuer : String
  audience : String
deriving DecidableEq, Repr

/-- The concrete configuration of the repository. -/
def tokenConfig : TokenConfig :=
  { accessTokenExpirySec := 15 * 60
  , refreshTokenExpirySec := 7 * 24 * 60 * 60
  , issuer := "dunno-api"
  , audience := "dunno-client" }

/-- Claims of a signed token (UserPayload extends JWTPayload). `username` is
optional because temp tokens carry no username claim. `sig` records whether
the HMAC-SHA256 signature validates under the server secret key; tokens minted
by the service have `sig = true`, a forged or tampered token has `sig = false`. -/
structure JWT where
  userId : String
  username : Option String
  type : Option String
  recoveryAvailable : Option Bool
  iat : Nat
  exp : Nat
  iss : String
  aud : String
  sig : Bool
deriving DecidableEq, Repr

/-- User credential record (models/user is referenced by the services; fields
reconstructed from every use site in src/src/services/user.ts). -/
structure User where
  userId : String
  username : String
  passwordHash : String
  email : String
  twoFactorEnabled : Bool
  twoFactorSecret : Option String
  recoveryCodes : Option (List String)
deriving DecidableEq, Repr

/-- Token pair returned by generateTokenPair. -/
structure TokenPair where
  accessToken : JWT
  refreshToken : JWT
  expiresIn : Nat
deriving DecidableEq, Repr

/-- The external TTL cache (Valkey/Redis) behind RedisManager.  `healthy`
models reachability: when false, every underlying client call raises, which
the RedisManager wrappers catch.  `blacklist` holds revocation entries as
(token, absolute expiry instant) pairs; an entry is visible while
`now < expiry`. -/
structure Cache where
  healthy : Bool
  blacklist : List (JWT × Nat)
deriving DecidableEq, Repr

/-- Errors thrown by the token service and cache wrapper.  Constructors are
named after the literal thrown messages. -/
inductive TokenError
  | invalidToken          -- thrown message: Invalid token
  | tokenIsBlacklisted    -- thrown message: Token is blacklisted (inside try)
  | joseVerifyFailed      -- jwtVerify rejection (signature, claims or expiry)
  | invalidTokenType      -- thrown message: Invalid token type (inside try)
  | refreshFailed         -- thrown message: Failed to refresh token
  | invalidTempToken      -- thrown message: Invalid temporary token
  | blacklistCheckFailed  -- thrown message: Failed to check token blacklist
deriving DecidableEq, Repr

/-- RedisManager.setex (src/src/services/valkey.ts:62-74): on success stores
the key for `seconds` seconds and returns true; any client error is caught,
logged, and reported as a `false` return value — setex never throws. -/
def RedisManager.setex (c : Cache) (now : Nat) (tok : JWT) (seconds : Nat) :
    Cache × Bool :=
  if c.healthy then
    ({ c with blacklist := (tok, now + seconds) :: c.blacklist }, true)
  else
    (c, false)

/-- tokenService.isTokenBlacklisted (part_010:524-534): client.get on the
blacklist key; non-null iff an unexpired entry exists.  A client error is
caught and rethrown as a blacklist-check failure. -/
def isTokenBlacklisted (c : Cache) (now : Nat) (tok : JWT) :
    Except TokenError Bool :=
  if c.healthy then
    .ok (c.blacklist.any fun e => e.1 == tok && decide (now < e.2))
  else
    .error .blacklistCheckFailed

/-- jose jwtVerify with issuer/audience options: accepts iff the signature
validates, issuer and audience match the configuration, and the token is not
expired (jose rejects once `exp ≤ now`, clock tolerance zero). -/
def jwtVerify (now : Nat) (tok : JWT) : Except TokenError JWT :=
  if tok.sig && tok.iss == tokenConfig.issuer
      && tok.aud == tokenConfig.audience && decide (now < tok.exp) then
    .ok tok
  else
    .error .joseVerifyFailed

/-- tokenService.generateTokenPair (part_010:409-443): access token with the
user claims and a 15 minute expiry, refresh token with the additional
`type = refresh` claim and a 7 day expiry, expiresIn 900 seconds. -/
def generateTokenPair (user : User) (now : Nat) : TokenPair :=
  { accessToken :=
      { userId := user.userId
      , username := some user.username
      , type := none
      , recoveryAvailable := none
      , iat := now
      , exp := now + tokenConfig.accessTokenExpirySec
      , iss := tokenConfig.issuer
      , aud := tokenConfig.audience
      , sig := true }
  , refreshToken :=
      { userId := user.userId
      , username := some user.username
      , type := some "refresh"
      , recoveryAvailable := none
      , iat := now
      , exp := now + tokenConfig.refreshTokenExpirySec
      , iss := tokenConfig.issuer
      , aud := tokenConfig.audience
      , sig := true }
  , expiresIn := 15 * 60 }

/-- Body of the try block of tokenService.verifyToken (part_010:445-462):
blacklist check first, then jwtVerify. -/
def verifyTokenTry (c : Cache) (now : Nat) (tok : JWT) :
    Except TokenError JWT :=
  match isTokenBlacklisted c now tok with
  | .error e => .error e
  | .ok true => .error .tokenIsBlacklisted
  | .ok false => jwtVerify now tok

/-- tokenService.verifyToken: every failure inside the try block — blacklist
hit, blacklist-check failure, or jwtVerify rejection — is caught and rethrown
as the single message Invalid token. -/
def verifyToken (c : Cache) (now : Nat) (tok : JWT) : Except TokenError JWT :=
  match verifyTokenTry c now tok with
  | .ok payload => .ok payload
  | .error _ => .error .invalidToken

/-- Body of the try block of tokenService.refreshAccessToken
(part_010:464-484): verify, require `type = refresh`, strip the type claim
and re-sign with fresh issued-at and a fresh 15 minute expiry. -/
def refreshAccessTokenTry (c : Cache) (now : Nat) (tok : JWT) :
    Except TokenError JWT :=
  match verifyToken c now tok with
  | .error e => .error e
  | .ok payload =>
    if payload.type ≠ some "refresh" then
      .error .invalidTokenType
    else
      .ok
        { userId := payload.userId
        , username := payload.username
        , type := none
        , recoveryAvailable := payload.recoveryAvailable
        , iat := now
        , exp := now + tokenConfig.accessTokenExpirySec
        , iss := tokenConfig.issuer
        , aud := tokenConfig.audience
        , sig := true }

/-- tokenService.refreshAccessToken: any failure in the try block is caught
and rethrown as Failed to refresh token.  The function returns only the new
access token; the refresh token is neither rotated nor reissued. -/
def refreshAccessToken (c : Cache) (now : Nat) (tok : JWT) :
    Except TokenError JWT :=
  match refreshAccessTokenTry c now tok with
  | .ok newTok => .ok newTok
  | .error _ => .error .refreshFailed

/-- Per-token body of tokenService.blacklistTokens (part_010:489-514):
decode-only read of the exp claim (no signature validation), compute the
remaining lifetime, and when it is positive write a revocation entry with
exactly that TTL; the boolean result of setex is discarded.  Tokens with
non-positive remaining lifetime are skipped. -/
def blacklistOne (c : Cache) (now : Nat) (tok : JWT) : Cache :=
  let timeDiff : Int := (tok.exp : Int) - (now : Int)
  if 0 < timeDiff then
    (RedisManager.setex c now tok timeDiff.toNat).1
  else
    c

/-- tokenService.blacklistTokens (part_010:486-522): processes each token of
the batch under an individual catch, so per-token failures never abort the
siblings; since setex itself never throws, the operation always completes
successfully. -/
def blacklistTokens (c : Cache) (now : Nat) (toks : List JWT) :
    Except TokenError Cache :=
  .ok (toks.foldl (fun acc t => blacklistOne acc now t) c)

/-- tokenService.generateTempToken (part_010:535-558): payload carries only
userId, `type = temp` and the recoveryAvailable flag (no username claim). -/
def generateTempToken (userId : String) (now expirySec : Nat)
    (recoveryAvailable : Bool) : JWT :=
  { userId := userId
  , username := none
  , type := some "temp"
  , recoveryAvailable := some recoveryAvailable
  , iat := now
  , exp := now + expirySec
  , iss := tokenConfig.issuer
  , aud := tokenConfig.audience
  , sig := true }

/-- Body of the try block of tokenService.verifyTempToken (part_010:560-576):
jwtVerify followed by the `type = temp` requirement.  Note that, unlike
verifyToken, no blacklist lookup is performed: the function takes no cache. -/
def verifyTempTokenTry (now : Nat) (tok : JWT) : Except TokenError JWT :=
  match jwtVerify now tok with
  | .error e => .error e
  | .ok payload =>
    if payload.type ≠ some "temp" then
      .error .invalidTempToken
    else
      .ok payload

/-- tokenService.verifyTempToken: any failure is caught and rethrown as
Invalid temporary token. -/
def verifyTempToken (now : Nat) (tok : JWT) : Except TokenError JWT :=
  match verifyTempTokenTry now tok with
  | .ok payload => .ok payload
  | .error _ => .error .invalidTempToken

/-- requireAuth (src/src/middleware/auth.ts:6-35): reads the accessToken
cookie; missing cookie, blacklist hit, blacklist-check failure or
verification failure all answer null after an unauthorized/internal
response; otherwise the decoded payload is returned and the request is
authorized. -/
def requireAuth (c : Cache) (now : Nat) (cookie : Option JWT) : Option JWT :=
  match cookie with
  | none => none
  | some tok =>
    match isTokenBlacklisted c now tok with
    | .error _ => none
    | .ok true => none
    | .ok false =>
      match verifyToken c now tok with
      | .ok payload => some payload
      | .error _ => none

/-- Errors thrown by the UserService operations used here; constructors are
named after the literal thrown messages. -/
inductive UserError
  | userNotFound          -- thrown message: User not found
  | setupNotStarted       -- thrown message: Two factor setup not started
  | invalidCode           -- thrown message: Invalid verification code
  | recoveryUnavailable   -- thrown message: Recovery authentication not available
  | noCodeProvided        -- thrown message: No code provided
deriving DecidableEq, Repr

/-- The JavaScript string trim builtin used by useRecoveryCode: strips
leading and trailing whitespace, modelled on the character list. -/
def jsTrim (s : String) : String :=
  String.mk
    (((s.toList.dropWhile Char.isWhitespace).reverse.dropWhile
        Char.isWhitespace).reverse)

/-- Character set of generateRecoveryCode (src/src/utils/recovery.ts:3-14). -/
def recoveryAlphabet : List Char :=
  "ABCDEFGHIJKLMNOPQRSTUVWXYZabcdefghijklmnopqrstuvwxyz0123456789".toList

/-- generateRecoveryCode: ten characters drawn as charAt(byte mod 62) from a
ten-byte random buffer, then the whole string uppercased.  The random buffer
is passed explicitly (randomBytes is an external entropy source). -/
def generateRecoveryCode (randomBuffer : Fin 10 → Nat) : String :=
  String.toUpper (String.mk ((List.finRange 10).map fun i =>
    recoveryAlphabet.getD (randomBuffer i % recoveryAlphabet.length) 'A'))

/-- generateRecoveryCodes (src/src/utils/recovery.ts:16-22): a loop of ten
calls to generateRecoveryCode, each with its own random buffer. -/
def generateRecoveryCodes (rand : Nat → Fin 10 → Nat) : List String :=
  (List.range 10).map fun i => generateRecoveryCode (rand i)

/-- Modelled from the spec: UserRepo.enableTwoFactor — the user repository is
not under src/ (only its call sites are); per the spec it persists the given
secret, the given recovery codes (overwriting any prior set) and the enabled
flag on the user record. -/
def UserRepo.enableTwoFactor (user : User) (secret : String)
    (recoveryCodes : List String) (enabled : Bool) : User :=
  { user with
    twoFactorSecret := some secret
  , recoveryCodes := some recoveryCodes
  , twoFactorEnabled := enabled }

/-- Modelled from the spec: UserRepo.updateUserRecoveryCodes — the user
repository is not under src/; per the spec it replaces the stored
recovery-code set with the given list. -/
def UserRepo.updateUserRecoveryCodes (user : User) (codes : List String) :
    User :=
  { user with recoveryCodes := some codes }

/-- UserService.verifyTwoFactor (src/src/services/user.ts:313-359) applied to
the record the repository lookup found.  The TOTP check (otpauth
totp.validate against the stored secret) is external crypto, modelled by the
oracle `totpValid secret code`; the entropy of generateRecoveryCodes is the
parameter `rand`.  The result pairs the stored record after the call with the
thrown error or returned value, since the repository write happens only on
the success path. -/
def verifyTwoFactor (totpValid : String → String → Bool)
    (rand : Nat → Fin 10 → Nat) (user : User) (token : String) :
    User × Except UserError (Bool × List String) :=
  match user.twoFactorSecret with
  | none => (user, .error .setupNotStarted)
  | some secret =>
    if totpValid secret token then
      let recoveryCodes := generateRecoveryCodes rand
      (UserRepo.enableTwoFactor user secret recoveryCodes true,
       .ok (true, recoveryCodes))
    else
      (user, .error .invalidCode)

/-- UserService.useRecoveryCode (src/src/services/user.ts:432-472) applied to
the record the repository lookup found: requires a non-empty stored set and a
non-empty supplied code, trims the supplied code, and on a match persists the
stored list filtered of every entry equal to the trimmed code; on no match
returns false without touching the record.  The result pairs the stored
record after the call with the thrown error or returned boolean. -/
def useRecoveryCode (user : User) (recoveryCode : String) :
    User × Except UserError Bool :=
  match user.recoveryCodes with
  | none => (user, .error .recoveryUnavailable)
  | some codes =>
    if codes.length = 0 then
      (user, .error .recoveryUnavailable)
    else if recoveryCode = "" then
      (user, .error .noCodeProvided)
    else
      let used := jsTrim recoveryCode
      if used ∈ codes then
        (UserRepo.updateUserRecoveryCodes user
          (codes.filter fun remaining => remaining ≠ used),
         .ok true)
      else
        (user, .ok false)

/-- TRPC error codes used by the login mutation. -/
inductive TRPCCode
  | TOO_MANY_REQUESTS
  | UNAUTHORIZED
  | INTERNAL_SERVER_ERROR
deriving DecidableEq, Repr

/-- The literal messages of the TRPCErrors thrown by the login mutation
(src/src/server/routers/user.ts:96-207); constructors stand for the exact
source strings, e.g. `userDoesNotExist` for the message string
"User does not exist" written with an apostrophe in the source. -/
inductive LoginMessage
  | tooManyLoginAttempts  -- Too many login attempts. Please try again later.
  | userDoesNotExist      -- message distinguishing an unknown username
  | invalidPassword       -- Invalid password
deriving DecidableEq, Repr

/-- Observable outcome of the login mutation: thrown TRPCError, a pending-2FA
response carrying a temp token, or a full session (cookies set with the
token pair). -/
inductive LoginResult
  | failure (code : TRPCCode) (message : LoginMessage)
  | requireTwoFactor (tempToken : JWT) (user : String)
      (recoveryAvailable : Bool)
  | success (pair : TokenPair)
deriving DecidableEq, Repr

/-- Observable side effects of the login mutation, in order: rate-limiter
reads/writes and credential-store accesses. -/
inductive LoginEvent
  | isRateLimitedCheck (ip username : String)
  | findByUsername (username : String)
  | verifyPasswordCheck
  | trackAttempt (ip username : String)
  | resetAttempts (ip username : String)
deriving DecidableEq, Repr

/-- userRouter.login (src/src/server/routers/user.ts:96-207).  External
collaborators are passed as oracles: `rateLimited` is the answer of
RateLimiter.isRateLimited (its implementation lives outside src/),
`userLookup` the answer of service.findByUsername, `passwordOk` the answer of
the argon2 password check.  Returns the observable result together with the
trace of rate-limiter and credential-store events in program order. -/
def login (rateLimited : Bool) (userLookup : Option User) (passwordOk : Bool)
    (ip username : String) (now : Nat) : LoginResult × List LoginEvent :=
  if rateLimited then
    (.failure .TOO_MANY_REQUESTS .tooManyLoginAttempts,
     [.isRateLimitedCheck ip username])
  else
    match userLookup with
    | none =>
      (.failure .UNAUTHORIZED .userDoesNotExist,
       [.isRateLimitedCheck ip username, .findByUsername username,
        .trackAttempt ip username])
    | some user =>
      if !passwordOk then
        (.failure .UNAUTHORIZED .invalidPassword,
         [.isRateLimitedCheck ip username, .findByUsername username,
          .verifyPasswordCheck, .trackAttempt ip username])
      else
        let prefixEvents :=
          [LoginEvent.isRateLimitedCheck ip username,
           .findByUsername username, .verifyPasswordCheck,
           .resetAttempts ip username]
        if user.twoFactorEnabled then
          let recoveryAvailable :=
            match user.recoveryCodes with
            | some codes => decide (0 < codes.length)
            | none => false
          (.requireTwoFactor
            (generateTempToken user.userId now (5 * 60) recoveryAvailable)
            user.username recoveryAvailable,
           prefixEvents)
        else
          (.success (generateTokenPair user now), prefixEvents)

/-! ### Concrete fixtures used by witnesses and counterexamples -/

/-- A concrete user record. -/
def alice : User :=
  { userId := "u-1"
  , username := "alice"
  , passwordHash := "argon2-hash"
  , email := "alice@mail.test"
  , twoFactorEnabled := false
  , twoFactorSecret := none
  , recoveryCodes := none }

/-- A reachable, empty cache. -/
def emptyCache : Cache := { healthy := true, blacklist := [] }

/-- An unreachable cache: every underlying client call raises. -/
def deadCache : Cache := { healthy := false, blacklist := [] }

/-! ### Claim theorems -/

/-- C1: for every user record U, verifying the access token produced by
generateTokenPair(U) succeeds before its 15 minute expiry and returns a
payload whose userId equals U.userId, and verifying the same token once the
15 minutes have elapsed fails with the Invalid token error. -/
theorem generateTokenPair_verify_roundtrip (u : User) (t0 now : Nat)
    (c : Cache)
    (hb : isTokenBlacklisted c now (generateTokenPair u t0).accessToken =
      .ok false) :
    (generateTokenPair u t0).accessToken.userId = u.userId
    ∧ (now < t0 + 15 * 60 →
        verifyToken c now (generateTokenPair u t0).accessToken =
          .ok (generateTokenPair u t0).accessToken)
    ∧ (t0 + 15 * 60 ≤ now →
        verifyToken c now (generateTokenPair u t0).accessToken =
          .error .invalidToken) := by
  simp [generateTokenPair, tokenConfig] at hb
  refine ⟨rfl, ?_, ?_⟩
  · intro hlt
    simp [verifyToken, verifyTokenTry, hb, jwtVerify, generateTokenPair,
      tokenConfig, hlt]
  · intro hge
    have hnot : ¬ (now < t0 + 15 * 60) := Nat.not_lt.mpr hge
    simp [verifyToken, verifyTokenTry, hb, jwtVerify, generateTokenPair,
      tokenConfig, hnot]

/-- C1 witness: alice, issued at 0, checked at 100 (valid) against an empty
cache; the same statement also covers the expiry branch vacuously. -/
theorem generateTokenPair_verify_roundtrip_witness :
    isTokenBlacklisted emptyCache 100
        (generateTokenPair alice 0).accessToken = .ok false
    ∧ ((generateTokenPair alice 0).accessToken.userId = alice.userId
      ∧ (100 < 0 + 15 * 60 →
          verifyToken emptyCache 100 (generateTokenPair alice 0).accessToken =
            .ok (generateTokenPair alice 0).accessToken)
      ∧ (0 + 15 * 60 ≤ 100 →
          verifyToken emptyCache 100 (generateTokenPair alice 0).accessToken =
            .error .invalidToken)) :=
  ⟨by decide, generateTokenPair_verify_roundtrip alice 0 100 emptyCache
    (by decide)⟩

/-- C2: for every token T with positive remaining lifetime, after
blacklistTokens([T]) completes the cache holds a revocation entry for T,
isTokenBlacklisted(T) answers true and verifyToken(T) fails — even though the
signature and expiry of T are untouched and individually valid; a token whose
remaining lifetime is non-positive at revocation time is skipped and the
cache is unchanged. -/
theorem blacklistTokens_revokes (c c2 : Cache) (now : Nat) (t : JWT)
    (hh : c.healthy = true)
    (hres : blacklistTokens c now [t] = .ok c2) :
    (now < t.exp →
        isTokenBlacklisted c2 now t = .ok true
      ∧ verifyToken c2 now t = .error .invalidToken)
    ∧ (t.exp ≤ now → c2 = c) := by
  have hc2 : c2 = blacklistOne c now t := by
    have := hres
    simp only [blacklistTokens, List.foldl] at this
    exact (Except.ok.injEq _ _).mp this.symm
  subst hc2
  constructor
  · intro hlt
    have hpos : (0 : Int) < (t.exp : Int) - (now : Int) := by omega
    have htn : ((t.exp : Int) - (now : Int)).toNat = t.exp - now := by omega
    have hone : blacklistOne c now t =
        { c with blacklist := (t, t.exp) :: c.blacklist } := by
      simp [blacklistOne, RedisManager.setex, hh, hpos, htn,
        Nat.add_sub_cancel' (Nat.le_of_lt hlt)]
    rw [hone]
    refine ⟨by simp [isTokenBlacklisted, hh, hlt], ?_⟩
    simp [verifyToken, verifyTokenTry, isTokenBlacklisted, hh, hlt]
  · intro hge
    have hnotpos : ¬ ((0 : Int) < (t.exp : Int) - (now : Int)) := by omega
    simp [blacklistOne, hnotpos]

/-- C2 witness: the fresh access token of alice, revoked ten seconds after
issuance, leaves a revocation entry that expires exactly with the token. -/
theorem blacklistTokens_revokes_witness :
    emptyCache.healthy = true
    ∧ blacklistTokens emptyCache 10 [(generateTokenPair alice 0).accessToken] =
        .ok { healthy := true
            , blacklist := [((generateTokenPair alice 0).accessToken, 900)] }
    ∧ ((10 < (generateTokenPair alice 0).accessToken.exp →
          isTokenBlacklisted
              { healthy := true
              , blacklist := [((generateTokenPair alice 0).accessToken, 900)] }
              10 (generateTokenPair alice 0).accessToken = .ok true
        ∧ verifyToken
              { healthy := true
              , blacklist := [((generateTokenPair alice 0).accessToken, 900)] }
              10 (generateTokenPair alice 0).accessToken =
            .error .invalidToken)
      ∧ ((generateTokenPair alice 0).accessToken.exp ≤ 10 →
          { healthy := true
          , blacklist := [((generateTokenPair alice 0).accessToken, 900)] } =
            emptyCache)) :=
  ⟨by decide, by decide,
    blacklistTokens_revokes emptyCache
      { healthy := true
      , blacklist := [((generateTokenPair alice 0).accessToken, 900)] }
      10 (generateTokenPair alice 0).accessToken (by decide) (by decide)⟩

/-- C3 counterexample: both a refresh token and a pending-2FA temp token,
presented as the access credential ten seconds after issuance against an
empty revocation store, are accepted by verifyToken, and the refresh token is
accepted by the requireAuth middleware — the full-session path never inspects
the type marker. -/
theorem full_session_path_accepts_typed_tokens_cex :
    (generateTokenPair alice 0).refreshToken.type = some "refresh"
    ∧ verifyToken emptyCache 10 (generateTokenPair alice 0).refreshToken =
        .ok (generateTokenPair alice 0).refreshToken
    ∧ requireAuth emptyCache 10
        (some (generateTokenPair alice 0).refreshToken) =
        some (generateTokenPair alice 0).refreshToken
    ∧ (generateTempToken "u-1" 0 300 true).type = some "temp"
    ∧ verifyToken emptyCache 10 (generateTempToken "u-1" 0 300 true) =
        .ok (generateTempToken "u-1" 0 300 true) := by decide

/-- C3 (amended): the full-session verification path — verifyToken and the
requireAuth middleware — checks revocation, signature, issuer, audience and
expiry but never the type marker: every otherwise-valid token is accepted
regardless of a temp or refresh type claim. -/
theorem full_session_path_ignores_type_marker (c : Cache) (now : Nat)
    (t : JWT)
    (hb : isTokenBlacklisted c now t = .ok false)
    (hsig : t.sig = true) (hiss : t.iss = tokenConfig.issuer)
    (haud : t.aud = tokenConfig.audience) (hexp : now < t.exp) :
    verifyToken c now t = .ok t ∧ requireAuth c now (some t) = some t := by
  have hv : verifyToken c now t = .ok t := by
    simp [verifyToken, verifyTokenTry, hb, jwtVerify, hsig, hiss, haud, hexp]
  exact ⟨hv, by simp [requireAuth, hb, hv]⟩

/-- C3 amended witness: the refresh token of a fresh pair is accepted by both
verifyToken and requireAuth. -/
theorem full_session_path_ignores_type_marker_witness :
    isTokenBlacklisted emptyCache 10
        (generateTokenPair alice 0).refreshToken = .ok false
    ∧ (generateTokenPair alice 0).refreshToken.sig = true
    ∧ (verifyToken emptyCache 10 (generateTokenPair alice 0).refreshToken =
        .ok (generateTokenPair alice 0).refreshToken
      ∧ requireAuth emptyCache 10
          (some (generateTokenPair alice 0).refreshToken) =
          some (generateTokenPair alice 0).refreshToken) :=
  ⟨by decide, by decide,
    full_session_path_ignores_type_marker emptyCache 10
      (generateTokenPair alice 0).refreshToken
      (by decide) (by decide) (by decide) (by decide) (by decide)⟩

/-- C4 counterexample: a temp token written to the revocation store at
issuance time — the store visibly holds it, isTokenBlacklisted answers
true — still passes verifyTempToken ten seconds later, because
verifyTempToken performs no revocation-store lookup. -/
theorem verifyTempToken_ignores_blacklist_cex :
    blacklistTokens emptyCache 0 [generateTempToken "u-1" 0 300 true] =
      .ok { healthy := true
          , blacklist := [(generateTempToken "u-1" 0 300 true, 300)] }
    ∧ isTokenBlacklisted
        { healthy := true
        , blacklist := [(generateTempToken "u-1" 0 300 true, 300)] }
        10 (generateTempToken "u-1" 0 300 true) = .ok true
    ∧ verifyTempToken 10 (generateTempToken "u-1" 0 300 true) =
        .ok (generateTempToken "u-1" 0 300 true) := by decide

/-- C4 (amended): verifyTempToken enforces signature, issuer, audience and
expiry as verify does, plus the requirement that the type marker equal temp,
and rejects everything else with the Invalid temporary token error — but it
never consults the revocation store, so a revoked temp token that is
otherwise valid and unexpired still passes (the function takes no cache). -/
theorem verifyTempToken_spec (now : Nat) (t : JWT) :
    verifyTempToken now t =
      if t.sig = true ∧ t.iss = tokenConfig.issuer
          ∧ t.aud = tokenConfig.audience ∧ now < t.exp
          ∧ t.type = some "temp" then
        .ok t
      else
        .error .invalidTempToken := by
  simp only [verifyTempToken, verifyTempTokenTry, jwtVerify]
  by_cases hsig : t.sig = true <;>
    by_cases hiss : t.iss = tokenConfig.issuer <;>
      by_cases haud : t.aud = tokenConfig.audience <;>
        by_cases hexp : now < t.exp <;>
          by_cases hty : t.type = some "temp" <;>
            simp [hsig, hiss, haud, hexp, hty]

/-- Every successful verifyToken returns exactly the decoded claims of the
presented token: jwtVerify either rejects or hands back the payload it was
given. -/
theorem verifyToken_ok_payload (c : Cache) (now : Nat) (t p : JWT)
    (h : verifyToken c now t = .ok p) : p = t := by
  simp only [verifyToken, verifyTokenTry, jwtVerify] at h
  rcases hbl : isTokenBlacklisted c now t with e | b <;> rw [hbl] at h
  · simp at h
  · cases b
    · split_ifs at h
      simp_all
    · simp at h

/-- C5: refreshAccessToken fails for every token whose claims lack
type = refresh — when the token otherwise verifies, the failing check inside
the try block is the type-marker requirement (Invalid token type), surfaced
by the catch as the refresh failure; on the refresh token of a fresh pair it
mints a new access token whose claims omit the type marker, with a fresh
15 minute expiry strictly later than the expiry of the access token of the
original pair, and returns only that token — the refresh token is not
rotated or reissued. -/
theorem refreshAccessToken_spec (c : Cache) (now : Nat) :
    (∀ t : JWT, t.type ≠ some "refresh" →
        refreshAccessToken c now t = .error .refreshFailed
      ∧ (verifyToken c now t = .ok t →
          refreshAccessTokenTry c now t = .error .invalidTokenType))
    ∧ (∀ (u : User) (t0 : Nat),
        isTokenBlacklisted c now (generateTokenPair u t0).refreshToken =
          .ok false →
        now < t0 + 7 * 24 * 60 * 60 →
        t0 < now →
        refreshAccessToken c now (generateTokenPair u t0).refreshToken =
          .ok
            { userId := u.userId
            , username := some u.username
            , type := none
            , recoveryAvailable := none
            , iat := now
            , exp := now + 15 * 60
            , iss := tokenConfig.issuer
            , aud := tokenConfig.audience
            , sig := true }
        ∧ (generateTokenPair u t0).accessToken.exp < now + 15 * 60) := by
  constructor
  · intro t hty
    have hcases : refreshAccessTokenTry c now t = .error .invalidTokenType
        ∨ ∃ e, refreshAccessTokenTry c now t = .error e := by
      rcases hv : verifyToken c now t with e | p
      · exact .inr ⟨e, by simp [refreshAccessTokenTry, hv]⟩
      · have hp : p = t := verifyToken_ok_payload c now t p hv
        subst hp
        exact .inl (by simp [refreshAccessTokenTry, hv, hty])
    constructor
    · rcases hcases with h | ⟨e, h⟩ <;> simp [refreshAccessToken, h]
    · intro hv
      simp [refreshAccessTokenTry, hv, hty]
  · intro u t0 hb hexp hlater
    simp [generateTokenPair, tokenConfig] at hb
    have hv : verifyToken c now (generateTokenPair u t0).refreshToken =
        .ok (generateTokenPair u t0).refreshToken := by
      simp [verifyToken, verifyTokenTry, hb, jwtVerify, generateTokenPair,
        tokenConfig, hexp]
    constructor
    · simp only [refreshAccessToken, refreshAccessTokenTry]
      rw [hv]
      simp [generateTokenPair, tokenConfig]
    · have hexp2 : (generateTokenPair u t0).accessToken.exp = t0 + 900 := by
        simp [generateTokenPair, tokenConfig]
      rw [hexp2]
      omega

/-- C5 witness: the fresh access token (no type marker) is refused, and the
fresh refresh token, redeemed 100 seconds after issuance, yields a new access
token expiring at 1000 — after the original access expiry 900. -/
theorem refreshAccessToken_spec_witness :
    (generateTokenPair alice 0).accessToken.type ≠ some "refresh"
    ∧ refreshAccessToken emptyCache 100
        (generateTokenPair alice 0).accessToken = .error .refreshFailed
    ∧ isTokenBlacklisted emptyCache 100
        (generateTokenPair alice 0).refreshToken = .ok false
    ∧ refreshAccessToken emptyCache 100
        (generateTokenPair alice 0).refreshToken =
        .ok
          { userId := alice.userId
          , username := some alice.username
          , type := none
          , recoveryAvailable := none
          , iat := 100
          , exp := 100 + 15 * 60
          , iss := tokenConfig.issuer
          , aud := tokenConfig.audience
          , sig := true }
    ∧ (generateTokenPair alice 0).accessToken.exp < 100 + 15 * 60 :=
  ⟨by decide,
   ((refreshAccessToken_spec emptyCache 100).1
      (generateTokenPair alice 0).accessToken (by decide)).1,
   by decide,
   ((refreshAccessToken_spec emptyCache 100).2 alice 0 (by decide) (by decide)
      (by decide)).1,
   ((refreshAccessToken_spec emptyCache 100).2 alice 0 (by decide) (by decide)
      (by decide)).2⟩

/-- C6 counterexample: with the stored list holding two copies of the same
code, one successful useRecoveryCode removes both — the stored size drops
from two to zero, not by exactly one; and the empty supplied code, which is
not in the stored set, raises the No code provided error instead of
returning false. -/
theorem useRecoveryCode_cex :
    useRecoveryCode
        { alice with recoveryCodes := some ["RECOVERYAA", "RECOVERYAA"] }
        "RECOVERYAA" =
      ({ alice with recoveryCodes := some [] }, .ok true)
    ∧ (["RECOVERYAA", "RECOVERYAA"] : List String).length = 2
    ∧ useRecoveryCode { alice with recoveryCodes := some ["RECOVERYAA"] }
        "" =
      ({ alice with recoveryCodes := some ["RECOVERYAA"] },
       .error .noCodeProvided) := by decide

/-- C6 (amended): for a user whose stored recovery codes are pairwise
distinct and contain the trimmed supplied code, useRecoveryCode succeeds,
persists the stored list with every copy of that code removed — a drop of
exactly one entry for distinct codes, though duplicated stored codes would
all be removed at once — and a second attempt with the same code no longer
succeeds; a non-empty supplied code whose trimmed form is not in the
non-empty stored set returns false (not an exception) and leaves the record
unchanged. An empty supplied code or an empty/missing stored set raises an
error instead of returning false. -/
theorem useRecoveryCode_spec (user : User) (codes : List String)
    (code : String)
    (hc : user.recoveryCodes = some codes) (hne : codes ≠ [])
    (hcode : code ≠ "") :
    (jsTrim code ∈ codes → codes.Nodup →
        useRecoveryCode user code =
          (UserRepo.updateUserRecoveryCodes user
            (codes.filter fun remaining => remaining ≠ jsTrim code), .ok true)
        ∧ (codes.filter fun remaining => remaining ≠ jsTrim code).length + 1 =
            codes.length
        ∧ (useRecoveryCode
            (UserRepo.updateUserRecoveryCodes user
              (codes.filter fun remaining => remaining ≠ jsTrim code))
            code).2 ≠ .ok true)
    ∧ (jsTrim code ∉ codes → useRecoveryCode user code = (user, .ok false)) := by
  have h0 : ¬ codes.length = 0 := by simpa [List.length_eq_zero] using hne
  constructor
  · intro hmem hnd
    refine ⟨?_, ?_, ?_⟩
    · simp [useRecoveryCode, hc, h0, hcode, hmem]
    · have h1 : (codes.filter fun remaining => remaining ≠ jsTrim code) =
          codes.filter (fun x => x != jsTrim code) := by
        apply List.filter_congr
        intro x _
        simp [bne, beq_eq_decide]
      rw [h1, ← hnd.erase_eq_filter (jsTrim code)]
      exact List.length_erase_add_one hmem
    · have hnotmem :
          jsTrim code ∉ codes.filter fun remaining => remaining ≠ jsTrim code := by
        simp [List.mem_filter]
      simp only [useRecoveryCode, UserRepo.updateUserRecoveryCodes]
      split_ifs <;> simp_all
  · intro hnot
    simp [useRecoveryCode, hc, h0, hcode, hnot]

/-- C6 amended witness: a two-code distinct set; consuming the first code
drops the size from two to one and the same code is refused afterwards. -/
theorem useRecoveryCode_spec_witness :
    ({ alice with recoveryCodes := some ["RECOVERYAA", "RECOVERYBB"] }
        : User).recoveryCodes = some ["RECOVERYAA", "RECOVERYBB"]
    ∧ (["RECOVERYAA", "RECOVERYBB"] : List String) ≠ []
    ∧ ("RECOVERYAA" : String) ≠ ""
    ∧ (useRecoveryCode
          { alice with recoveryCodes := some ["RECOVERYAA", "RECOVERYBB"] }
          "RECOVERYAA" =
        (UserRepo.updateUserRecoveryCodes
          { alice with recoveryCodes := some ["RECOVERYAA", "RECOVERYBB"] }
          ((["RECOVERYAA", "RECOVERYBB"] : List String).filter
            fun remaining => remaining ≠ jsTrim ("RECOVERYAA" : String)),
         .ok true)
      ∧ ((["RECOVERYAA", "RECOVERYBB"] : List String).filter
          fun remaining => remaining ≠ jsTrim ("RECOVERYAA" : String)).length
            + 1 = (["RECOVERYAA", "RECOVERYBB"] : List String).length
      ∧ (useRecoveryCode
          (UserRepo.updateUserRecoveryCodes
            { alice with recoveryCodes := some ["RECOVERYAA", "RECOVERYBB"] }
            ((["RECOVERYAA", "RECOVERYBB"] : List String).filter
              fun remaining => remaining ≠ jsTrim ("RECOVERYAA" : String)))
          "RECOVERYAA").2 ≠ .ok true) :=
  ⟨rfl, by decide, by decide,
   (useRecoveryCode_spec
      { alice with recoveryCodes := some ["RECOVERYAA", "RECOVERYBB"] }
      ["RECOVERYAA", "RECOVERYBB"] "RECOVERYAA" rfl (by decide)
      (by decide)).1 (by decide) (by decide)⟩

/-- A concrete user who has started 2FA enrollment: a secret is stored, the
enabled flag still false. -/
def aliceEnrolling : User := { alice with twoFactorSecret := some "BASE32SECRET" }

/-- C7: verifyTwoFactor with a code that does not validate against the
stored secret fails with the Invalid verification code error and performs no
mutation — the stored record, hence the enabled flag, the secret and any
existing recovery codes, is unchanged; with a valid code it generates
exactly ten fresh recovery codes and persists enabled = true with the same
secret and the new codes, overwriting any prior set. -/
theorem verifyTwoFactor_spec (totpValid : String → String → Bool)
    (rand : Nat → Fin 10 → Nat) (user : User) (secret code : String)
    (hs : user.twoFactorSecret = some secret) :
    (totpValid secret code = false →
        verifyTwoFactor totpValid rand user code =
          (user, .error .invalidCode))
    ∧ (totpValid secret code = true →
        verifyTwoFactor totpValid rand user code =
          ({ user with
              twoFactorSecret := some secret
            , recoveryCodes := some (generateRecoveryCodes rand)
            , twoFactorEnabled := true },
           .ok (true, generateRecoveryCodes rand))
        ∧ (generateRecoveryCodes rand).length = 10) := by
  constructor
  · intro hv
    simp [verifyTwoFactor, hs, hv]
  · intro hv
    constructor
    · simp [verifyTwoFactor, hs, hv, UserRepo.enableTwoFactor]
    · simp [generateRecoveryCodes]

/-- C7 witness: an always-false oracle leaves the enrolling record untouched
with the Invalid verification code error; an always-true oracle flips the
flag, keeps the secret and stores the ten fresh codes. -/
theorem verifyTwoFactor_spec_witness :
    aliceEnrolling.twoFactorSecret = some "BASE32SECRET"
    ∧ ((fun (_ _ : String) => false) "BASE32SECRET" "000000" = false →
        verifyTwoFactor (fun _ _ => false) (fun _ _ => 0) aliceEnrolling
          "000000" = (aliceEnrolling, .error .invalidCode))
    ∧ ((fun (_ _ : String) => true) "BASE32SECRET" "123456" = true →
        verifyTwoFactor (fun _ _ => true) (fun _ _ => 0) aliceEnrolling
          "123456" =
          ({ aliceEnrolling with
              twoFactorSecret := some "BASE32SECRET"
            , recoveryCodes := some (generateRecoveryCodes fun _ _ => 0)
            , twoFactorEnabled := true },
           .ok (true, generateRecoveryCodes fun _ _ => 0))
        ∧ (generateRecoveryCodes fun _ _ => 0).length = 10) :=
  ⟨rfl,
   (verifyTwoFactor_spec (fun _ _ => false) (fun _ _ => 0) aliceEnrolling
      "BASE32SECRET" "000000" rfl).1,
   (verifyTwoFactor_spec (fun _ _ => true) (fun _ _ => 0) aliceEnrolling
      "BASE32SECRET" "123456" rfl).2⟩

/-- C8 counterexample: for the same origin and target username, the
observable failure for an unknown username and the observable failure for a
known username with a wrong password carry different messages — the caller
can tell them apart — although the rate limiter is updated in both runs. -/
theorem login_failure_messages_differ_cex :
    (login false none true "1.2.3.4" "alice" 0).1 =
      .failure .UNAUTHORIZED .userDoesNotExist
    ∧ (login false (some alice) false "1.2.3.4" "alice" 0).1 =
      .failure .UNAUTHORIZED .invalidPassword
    ∧ (login false none true "1.2.3.4" "alice" 0).1 ≠
      (login false (some alice) false "1.2.3.4" "alice" 0).1
    ∧ LoginEvent.trackAttempt "1.2.3.4" "alice" ∈
        (login false none true "1.2.3.4" "alice" 0).2
    ∧ LoginEvent.trackAttempt "1.2.3.4" "alice" ∈
        (login false (some alice) false "1.2.3.4" "alice" 0).2 := by decide

/-- C8 (amended): both login failure paths throw an UNAUTHORIZED TRPC error
and both update the rate limiter through trackAttempt, but the error
messages differ — the unknown-username path reports that the user does not
exist while the wrong-password path reports an invalid password — so
unknown identity and wrong password are distinguishable by the caller. -/
theorem login_failures_unauthorized_and_tracked (userLookup : Option User)
    (passwordOk : Bool) (ip username : String) (now : Nat) :
    ((login false none passwordOk ip username now).1 =
        .failure .UNAUTHORIZED .userDoesNotExist
      ∧ LoginEvent.trackAttempt ip username ∈
          (login false none passwordOk ip username now).2)
    ∧ (∀ u, userLookup = some u → passwordOk = false →
        (login false userLookup passwordOk ip username now).1 =
          .failure .UNAUTHORIZED .invalidPassword
        ∧ LoginEvent.trackAttempt ip username ∈
            (login false userLookup passwordOk ip username now).2) := by
  constructor
  · exact ⟨by simp [login], by simp [login]⟩
  · rintro u rfl rfl
    exact ⟨by simp [login], by simp [login]⟩

/-- C8 amended witness: both concrete failure runs for alice. -/
theorem login_failures_unauthorized_and_tracked_witness :
    (some alice = some alice ∧ (false : Bool) = false)
    ∧ ((login false none false "1.2.3.4" "alice" 0).1 =
        .failure .UNAUTHORIZED .userDoesNotExist
      ∧ LoginEvent.trackAttempt "1.2.3.4" "alice" ∈
          (login false none false "1.2.3.4" "alice" 0).2)
    ∧ ((login false (some alice) false "1.2.3.4" "alice" 0).1 =
        .failure .UNAUTHORIZED .invalidPassword
      ∧ LoginEvent.trackAttempt "1.2.3.4" "alice" ∈
          (login false (some alice) false "1.2.3.4" "alice" 0).2) :=
  ⟨⟨rfl, rfl⟩,
   (login_failures_unauthorized_and_tracked (some alice) false "1.2.3.4"
      "alice" 0).1,
   (login_failures_unauthorized_and_tracked (some alice) false "1.2.3.4"
      "alice" 0).2 alice rfl rfl⟩

/-- C9: whenever the rate limiter reports the caller limited at the start of
a login request, the request fails with the TOO_MANY_REQUESTS error and the
event trace stops at the rate-limit check: the credential store is never
consulted — no findByUsername and no password verification occurs. -/
theorem login_rateLimited_skips_credential_store (rateLimited : Bool)
    (userLookup : Option User) (passwordOk : Bool) (ip username : String)
    (now : Nat) (hrl : rateLimited = true) :
    (login rateLimited userLookup passwordOk ip username now).1 =
      .failure .TOO_MANY_REQUESTS .tooManyLoginAttempts
    ∧ (login rateLimited userLookup passwordOk ip username now).2 =
        [.isRateLimitedCheck ip username]
    ∧ (∀ s, LoginEvent.findByUsername s ∉
        (login rateLimited userLookup passwordOk ip username now).2)
    ∧ LoginEvent.verifyPasswordCheck ∉
        (login rateLimited userLookup passwordOk ip username now).2 := by
  subst hrl
  refine ⟨by simp [login], by simp [login], ?_, by simp [login]⟩
  intro s
  simp [login]

/-- C9 witness: a limited concrete request for alice is rejected without any
credential-store event. -/
theorem login_rateLimited_skips_credential_store_witness :
    (true : Bool) = true
    ∧ ((login true (some alice) true "1.2.3.4" "alice" 0).1 =
        .failure .TOO_MANY_REQUESTS .tooManyLoginAttempts
      ∧ (login true (some alice) true "1.2.3.4" "alice" 0).2 =
          [.isRateLimitedCheck "1.2.3.4" "alice"]
      ∧ (∀ s, LoginEvent.findByUsername s ∉
          (login true (some alice) true "1.2.3.4" "alice" 0).2)
      ∧ LoginEvent.verifyPasswordCheck ∉
          (login true (some alice) true "1.2.3.4" "alice" 0).2) :=
  ⟨rfl,
   login_rateLimited_skips_credential_store true (some alice) true "1.2.3.4"
     "alice" 0 rfl⟩

/-- C10 counterexample: with the shared cache unreachable, revoking the
fresh access token of alice — a token with 900 seconds of remaining
lifetime — completes successfully: the underlying setex reports the dropped
write only as a false return value, blacklistTokens discards it, no
revocation entry exists afterwards, and no internal error is raised. -/
theorem blacklistTokens_silent_write_drop_cex :
    deadCache.healthy = false
    ∧ (RedisManager.setex deadCache 0 (generateTokenPair alice 0).accessToken
        900).2 = false
    ∧ blacklistTokens deadCache 0 [(generateTokenPair alice 0).accessToken] =
        .ok deadCache
    ∧ deadCache.blacklist = [] := by decide

/-- C10 (amended): when the shared cache is unreachable, setex catches the
client error and reports it only by returning false; blacklistTokens
discards that value, so revocation completes successfully with no entry
written rather than aborting with an internal error.  Only the read path,
isTokenBlacklisted, surfaces the cache failure as an error. -/
theorem blacklistTokens_ignores_write_failure (c : Cache) (now : Nat)
    (toks : List JWT) (hc : c.healthy = false) :
    blacklistTokens c now toks = .ok c
    ∧ (∀ t s, (RedisManager.setex c now t s).2 = false)
    ∧ (∀ t, isTokenBlacklisted c now t = .error .blacklistCheckFailed) := by
  refine ⟨?_, ?_, ?_⟩
  · have h : ∀ (l : List JWT) (acc : Cache), acc.healthy = false →
        l.foldl (fun a t => blacklistOne a now t) acc = acc := by
      intro l
      induction l with
      | nil => intro acc _; rfl
      | cons t ts ih =>
        intro acc hacc
        have hone : blacklistOne acc now t = acc := by
          simp [blacklistOne, RedisManager.setex, hacc]
        rw [List.foldl_cons, hone]
        exact ih acc hacc
    simp [blacklistTokens, h toks c hc]
  · intro t s
    simp [RedisManager.setex, hc]
  · intro t
    simp [isTokenBlacklisted, hc]

/-- C10 amended witness: the unreachable cache at the concrete revocation of
the fresh access token of alice. -/
theorem blacklistTokens_ignores_write_failure_witness :
    deadCache.healthy = false
    ∧ (blacklistTokens deadCache 0 [(generateTokenPair alice 0).accessToken] =
        .ok deadCache
      ∧ (∀ t s, (RedisManager.setex deadCache 0 t s).2 = false)
      ∧ (∀ t, isTokenBlacklisted deadCache 0 t =
          .error .blacklistCheckFailed)) :=
  ⟨rfl,
   blacklistTokens_ignores_write_failure deadCache 0
     [(generateTokenPair alice 0).accessToken] rfl⟩

end Dunno
